import Mathlib

/-!
Shallow embedding of the FlowForm data layer (`src/lib/data.ts`) and of the
dynamic-form default/validation logic
(`src/app/admin/tables/[tableId]/components/dynamic-table-entry-dialog.tsx` and
`studio-master/src/app/workflows/[id]/page.tsx`), together with theorems about
workflow-instance creation, the document-upload value codec, default-value
resolution, validation, and the task/instance status machines.

Modelling conventions:
* Firestore documents are Lean structures; collections are lists inside a
  `Store`.  JavaScript `undefined` is `Option.none`; JavaScript `null` is the
  explicit `Value.vNull`.
* Timestamps are integers (milliseconds since the epoch).  `serverTimestamp()`
  and `Date.now()` during one operation are both modelled by the operation's
  `now` argument.
* Blob storage is the list of stored object paths; storage calls additionally
  produce an event trace (`StorageEvent`) recording delete/upload calls in
  order.
* Reads that go to the backend can be made to fail through a `ReadOp → Bool`
  oracle, which models transport failures during workflow-instance creation.
-/

namespace FlowForm

/-- The ten field kinds of `DynamicFieldType` in `src/lib/types.ts`. -/
inductive FieldType where
  | textInput
  | textArea
  | number
  | date
  | time
  | datetime
  | documentUpload
  | dropdownList
  | checkboxGroup
  | radioButtonGroup
  | booleanToggle
deriving DecidableEq, Repr

/-- Dynamic-data values as they occur in the code: `null`, strings (including
storage paths), numbers, booleans, string arrays (checkbox groups), and `File`
objects (identified by their file name). -/
inductive Value where
  | vNull
  | vStr (s : String)
  | vNum (n : Int)
  | vBool (b : Bool)
  | vArr (xs : List String)
  | vFile (name : String)
deriving DecidableEq, Repr

/-- JavaScript truthiness of a defined value. -/
def Value.truthy : Value → Bool
  | .vNull => false
  | .vStr s => s ≠ ""
  | .vNum n => n ≠ 0
  | .vBool b => b
  | .vArr _ => true
  | .vFile _ => true

/-- JavaScript `x || null` for a possibly-undefined value. -/
def jsOrNull : Option Value → Value
  | some v => if v.truthy then v else Value.vNull
  | none => Value.vNull

/-- JavaScript `x ?? d` (nullish coalescing) for a possibly-undefined value. -/
def nullishCoalesce (x : Option Value) (d : Value) : Value :=
  match x with
  | some v => if v = Value.vNull then d else v
  | none => d

/-- Lookup in a JavaScript-object-like association list; `none` is `undefined`. -/
def lookupVal (m : List (String × Value)) (k : String) : Option Value :=
  (m.find? (fun p => p.1 = k)).map (·.2)

/-- Lookup in a string-valued association list (e.g. `associatedData`). -/
def lookupStr (m : List (String × String)) (k : String) : Option String :=
  (m.find? (fun p => p.1 = k)).map (·.2)

/-- Assignment `obj[k] = v` on an association list: replaces the first binding
of `k`, or appends one. -/
def setKey (m : List (String × Value)) (k : String) (v : Value) : List (String × Value) :=
  match m with
  | [] => [(k, v)]
  | (k', v') :: rest => if k' = k then (k, v) :: rest else (k', v') :: setKey rest k v

/-- JavaScript truthiness of a possibly-undefined string (`undefined`, `null`
and `""` are falsy). -/
def optStrTruthy : Option String → Bool
  | some s => s ≠ ""
  | none => false

/-- Interface `DynamicField` (the parts the verified logic reads). -/
structure DynamicField where
  id : String
  name : String
  type : FieldType
  isRequired : Bool
  /-- `defaultValue?`; `none` is an absent (undefined) configured default. -/
  defaultValue : Option Value := none
  /-- `validationRules?.email` -/
  ruleEmail : Bool := false
  /-- `validationRules?.min` -/
  ruleMin : Option Int := none
  /-- `validationRules?.max` -/
  ruleMax : Option Int := none
  isArchived : Bool := false
deriving DecidableEq, Repr

/-- Interface `DynamicTable` (the parts the verified logic reads). -/
structure DynamicTable where
  id : String
  fieldIds : List String
  isArchived : Bool := false
deriving DecidableEq, Repr

/-- Interface `DynamicTableRowData`: an entry of a dynamic table. -/
structure DynamicTableRow where
  id : String
  data : List (String × Value)
  isArchived : Bool := false
deriving DecidableEq, Repr

/-- Interface `TaskTemplate` (the parts the verified logic reads). -/
structure TaskTemplate where
  id : String
  dueDateOffsetDays : Option Int := none
  dynamicTableId : Option String := none
  isArchived : Bool := false
deriving DecidableEq, Repr

/-- Interface `WorkflowTemplate` (the parts the verified logic reads). -/
structure WorkflowTemplate where
  id : String
  taskTemplateIds : List String
  isArchived : Bool := false
deriving DecidableEq, Repr

/-- Enum `WorkflowInstanceStatus`. -/
inductive WorkflowInstanceStatus where
  | active
  | completed
  | cancelled
deriving DecidableEq, Repr

/-- Enum `TaskStatus`. -/
inductive TaskStatus where
  | pending
  | inProgress
  | completed
  | overdue
  | skipped
deriving DecidableEq, Repr

/-- Interface `WorkflowInstance`. -/
structure WorkflowInstance where
  id : String
  workflowTemplateId : String
  name : String
  status : WorkflowInstanceStatus
  startedByUserId : Option String := none
  startDatetime : Int
  finishDatetime : Option Int := none
  associatedData : List (String × String) := []
  isArchived : Bool := false
  createdAt : Int
deriving DecidableEq, Repr

/-- Interface `Task`. -/
structure Task where
  id : String
  taskTemplateId : String
  workflowInstanceId : String
  assignedToUserId : Option String := none
  status : TaskStatus
  dueDate : Option Int := none
  startDatetime : Option Int := none
  finishDatetime : Option Int := none
  notes : Option String := none
  dynamicTableId : Option String := none
  dynamicTableData : List (String × Value) := []
  createdAt : Int
deriving DecidableEq, Repr

/-- The Firestore collections the verified operations touch.  Dynamic-table
entries live in per-table sub-collections, modelled as pairs
`(tableId, row)`. -/
structure Store where
  dynamicFields : List DynamicField := []
  dynamicTables : List DynamicTable := []
  entries : List (String × DynamicTableRow) := []
  taskTemplates : List TaskTemplate := []
  workflowTemplates : List WorkflowTemplate := []
  workflowInstances : List WorkflowInstance := []
  tasks : List Task := []
deriving DecidableEq, Repr

/-- Fetch an entry document `dynamicTables/{tableId}/entries/{rowId}`. -/
def Store.findEntry (st : Store) (tableId rowId : String) : Option DynamicTableRow :=
  (st.entries.find? (fun p => p.1 = tableId && p.2.id = rowId)).map (·.2)

/-! ### Blob storage (`uploadFileToStorage`, `deleteFileFromStorage`) -/

/-- One call to the blob-storage boundary, in chronological order. -/
inductive StorageEvent where
  | deleteObj (path : String)
  | uploadObj (fileName path : String)
deriving DecidableEq, Repr

/-- Storage state: the set of stored object paths. -/
abbrev Storage := List String

/-- The SDK's `deleteObject`: fails with `storage/object-not-found` when the
path is not stored. -/
def deleteObject (σ : Storage) (path : String) : Except String Storage :=
  if path ∈ σ then .ok (σ.erase path) else .error "storage/object-not-found"

/-- The guard `!storagePath || typeof storagePath !== 'string' ||
storagePath.trim() === ''`: the path is empty or all whitespace. -/
def isBlankPath (path : String) : Bool :=
  path.data.all Char.isWhitespace

/-- `deleteFileFromStorage` (`data.ts` lines 121-140): an invalid or blank path
is a warn-and-return no-op; `storage/object-not-found` from `deleteObject` is
swallowed ("considered deleted"); any other storage error would be re-thrown
(the storage model above produces no other error). -/
def deleteFileFromStorage (σ : Storage) (path : String) :
    List StorageEvent × Except String Storage :=
  if isBlankPath path then ([], .ok σ)
  else
    match deleteObject σ path with
    | .ok σ' => ([.deleteObj path], .ok σ')
    | .error e =>
        if e = "storage/object-not-found" then ([.deleteObj path], .ok σ)
        else ([.deleteObj path], .error e)

/-- `uploadFileToStorage` (`data.ts` lines 85-102): uploads the file at the
given path and returns the stored full path. -/
def uploadFileToStorage (σ : Storage) (fileName path : String) :
    List StorageEvent × Storage × String :=
  ([.uploadObj fileName path], path :: σ, path)

/-! ### Workflow-instance creation (`addWorkflowInstance`, `data.ts` 613-667) -/

/-- Payload interface `AddWorkflowInstancePayload`. -/
structure AddWorkflowInstancePayload where
  workflowTemplateId : String
  name : String
  /-- `associatedData?`: `none` is an omitted argument (undefined). -/
  associatedData : Option (List (String × String)) := none
  taskAssignments : List (String × String) := []
  startedByUserId : Option String := none
deriving DecidableEq, Repr

/-- Backend reads issued by `addWorkflowInstance` that can fail in transit,
plus the final batch commit. -/
inductive ReadOp where
  | getTemplate (id : String)
  | listTaskTemplates
  | getTableEntry (tableId rowId : String)
  | commit
deriving DecidableEq, Repr

/-- A buffered write of the Firestore `writeBatch`. -/
inductive BatchWrite where
  | putInstance (i : WorkflowInstance)
  | putTask (t : Task)
deriving DecidableEq, Repr

/-- Apply one buffered write to the store. -/
def Store.applyWrite (st : Store) : BatchWrite → Store
  | .putInstance i => { st with workflowInstances := st.workflowInstances ++ [i] }
  | .putTask t => { st with tasks := st.tasks ++ [t] }

/-- Commit a batch: all buffered writes are applied together. -/
def Store.commitBatch (st : Store) (b : List BatchWrite) : Store :=
  b.foldl Store.applyWrite st

/-- The `initialTaskData` computation inside the task-materialization loop:
seed from the associated table row when `associatedData` was supplied, the task
template's `dynamicTableId` is truthy, the association for that table is
truthy, and the referenced entry exists and is not archived. -/
def initialTaskData (assoc : Option (List (String × String)))
    (tt : TaskTemplate) : Option (String × String) :=
  match assoc, tt.dynamicTableId with
  | some ad, some tid =>
      if tid ≠ "" then
        match lookupStr ad tid with
        | some rid => if rid ≠ "" then some (tid, rid) else none
        | none => none
      else none
  | _, _ => none

/-- Build the `Task` record written for one non-archived task template in
`addWorkflowInstance` (lines 648-659). -/
def buildTask (taskId instId : String) (payload : AddWorkflowInstancePayload)
    (now : Int) (tt : TaskTemplate) (idata : List (String × Value)) : Task :=
  { id := taskId
    taskTemplateId := tt.id
    workflowInstanceId := instId
    assignedToUserId :=
      match lookupStr payload.taskAssignments tt.id with
      | some u => if u ≠ "" then some u else none
      | none => none
    status := TaskStatus.pending
    dueDate :=
      match tt.dueDateOffsetDays with
      | some d => if d ≠ 0 then some (now + d * 24 * 60 * 60 * 1000) else none
      | none => none
    dynamicTableId :=
      match tt.dynamicTableId with
      | some t => if t ≠ "" then some t else none
      | none => none
    dynamicTableData := idata
    createdAt := now }

/-- The task-materialization loop of `addWorkflowInstance` (lines 634-661):
walks the workflow template's `taskTemplateIds`, skipping ids that do not
resolve to a non-archived task template, and builds one Pending task per
remaining id.  `idx` numbers the fresh task document ids.  The per-task table
entry read can fail through the oracle. -/
def materializeTasks (st : Store) (fails : ReadOp → Bool)
    (payload : AddWorkflowInstancePayload) (now : Int) (instId : String)
    (freshTaskId : Nat → String) :
    List String → Nat → Except String (List Task)
  | [], _ => .ok []
  | ttid :: rest, idx =>
      match st.taskTemplates.find? (fun tt => tt.id = ttid && !tt.isArchived) with
      | none => materializeTasks st fails payload now instId freshTaskId rest idx
      | some tt =>
          let idataRead : Except String (List (String × Value)) :=
            match initialTaskData payload.associatedData tt with
            | some (tid, rid) =>
                if fails (.getTableEntry tid rid) then .error "table entry read failed"
                else
                  .ok (match st.findEntry tid rid with
                       | some row => if !row.isArchived then row.data else []
                       | none => [])
            | none => .ok []
          match idataRead with
          | .error e => .error e
          | .ok idata =>
              match materializeTasks st fails payload now instId freshTaskId rest (idx + 1) with
              | .error e => .error e
              | .ok tasks => .ok (buildTask (freshTaskId idx) instId payload now tt idata :: tasks)

/-- The reads of `addWorkflowInstance` that decide which tasks to buffer:
resolve the workflow template (an unresolved template id yields no tasks, not
an error), list the task templates, and materialize one task per non-archived
referenced task template. -/
def readMaterializedTasks (st : Store) (fails : ReadOp → Bool)
    (payload : AddWorkflowInstancePayload) (now : Int) (instId : String)
    (freshTaskId : Nat → String) : Except String (List Task) :=
  match st.workflowTemplates.find? (fun t => t.id = payload.workflowTemplateId) with
  | some template =>
      if fails .listTaskTemplates then .error "task templates read failed"
      else materializeTasks st fails payload now instId freshTaskId
             template.taskTemplateIds 0
  | none => .ok []

/-- The `WorkflowInstance` record buffered by `addWorkflowInstance` (`data.ts`
lines 619-629). -/
def builtInstance (payload : AddWorkflowInstancePayload) (now : Int)
    (currentUid : Option String) (freshInstanceId : String) : WorkflowInstance :=
  { id := freshInstanceId
    workflowTemplateId := payload.workflowTemplateId
    name := payload.name
    status := WorkflowInstanceStatus.active
    startedByUserId :=
      if optStrTruthy payload.startedByUserId then payload.startedByUserId
      else if optStrTruthy currentUid then currentUid
      else none
    startDatetime := now
    associatedData := payload.associatedData.getD []
    createdAt := now }

/-- `addWorkflowInstance` (`data.ts` lines 613-667).  Buffers the instance
write, resolves the workflow template (an unknown template id simply skips task
materialization), buffers one Pending task per non-archived referenced task
template, then commits everything in one batch.  Returns the resulting store
together with the created instance or the error; on any error the batch is
never committed, so the returned store is the input store. -/
def addWorkflowInstance (st : Store) (fails : ReadOp → Bool)
    (payload : AddWorkflowInstancePayload) (now : Int) (currentUid : Option String)
    (freshInstanceId : String) (freshTaskId : Nat → String) :
    Store × Except String WorkflowInstance :=
  let inst : WorkflowInstance := builtInstance payload now currentUid freshInstanceId
  if fails (.getTemplate payload.workflowTemplateId) then (st, .error "template read failed")
  else
    match readMaterializedTasks st fails payload now freshInstanceId freshTaskId with
    | .error e => (st, .error e)
    | .ok newTasks =>
        if fails .commit then (st, .error "batch commit failed")
        else
          let st' := st.commitBatch (.putInstance inst :: newTasks.map .putTask)
          match st'.workflowInstances.find? (fun i => i.id = freshInstanceId) with
          | some created => (st', .ok created)
          | none => (st', .error "Workflow instance not found after creation")

/-! ### Document-upload value codec
(`updateDynamicTableEntry` loop, `data.ts` 458-484, and
`updateTaskDynamicData` loop, `data.ts` 729-751) -/

/-- The test `newFileOrPath === null || newFileOrPath === undefined ||
newFileOrPath === ''`. -/
def isNullish : Option Value → Bool
  | none => true
  | some Value.vNull => true
  | some (Value.vStr s) => s = ""
  | _ => false

/-- The repeated guard `typeof oldStoragePath === 'string' && oldStoragePath`
followed by `deleteFileFromStorage(oldStoragePath)`: deletes the old stored
path when it is a non-empty string, otherwise does nothing. -/
def deleteOldIfPresent (oldVal : Option Value) (σ : Storage) :
    List StorageEvent × Except String Storage :=
  match oldVal with
  | some (Value.vStr s) => if s ≠ "" then deleteFileFromStorage σ s else ([], .ok σ)
  | _ => ([], .ok σ)

/-- One iteration of the document-upload reconciliation loop of
`updateDynamicTableEntry` (`data.ts` 458-484) for a field of type
`DOCUMENT_UPLOAD`: given the submitted value and the currently stored value
for that field, performs the storage calls and returns the value persisted for
the field. -/
def processDocFieldEntry (tableId entryId fieldName : String)
    (newVal oldVal : Option Value) (σ : Storage) :
    List StorageEvent × Except String (Storage × Value) :=
  match newVal with
  | some (Value.vFile fname) =>
      let (evts₁, r₁) := deleteOldIfPresent oldVal σ
      (match r₁ with
       | .error e => (evts₁, .error e)
       | .ok σ₁ =>
           let filePath := String.intercalate "/"
             ["dynamicTableEntries", tableId, entryId, fieldName, fname]
           let (evts₂, σ₂, stored) := uploadFileToStorage σ₁ fname filePath
           (evts₁ ++ evts₂, .ok (σ₂, Value.vStr stored)))
  | _ =>
      if isNullish newVal then
        let (evts₁, r₁) := deleteOldIfPresent oldVal σ
        (match r₁ with
         | .error e => (evts₁, .error e)
         | .ok σ₁ => (evts₁, .ok (σ₁, Value.vNull)))
      else
        match newVal with
        | some (Value.vStr s) => ([], .ok (σ, Value.vStr s))
        | _ => ([], .ok (σ, jsOrNull oldVal))

/-- The trailing `typeof newFileOrPath === 'string'` / `else` cases of the
`updateTaskDynamicData` loop. -/
def taskFieldFallback (newVal oldVal : Option Value) (σ : Storage) :
    List StorageEvent × Except String (Storage × Value) :=
  match newVal with
  | some (Value.vStr s) => ([], .ok (σ, Value.vStr s))
  | _ => ([], .ok (σ, jsOrNull oldVal))

/-- One iteration of the document-upload reconciliation loop of
`updateTaskDynamicData` (`data.ts` 729-751).  It differs from the entry
version in the clear branch: the old path is deleted and `null` persisted only
when the submitted value is nullish AND the old stored path is a non-empty
string; a nullish submission over a missing old path falls through to the
string/fallback cases. -/
def processDocFieldTask (workflowInstanceId taskId fieldName : String)
    (newVal oldVal : Option Value) (σ : Storage) :
    List StorageEvent × Except String (Storage × Value) :=
  match newVal with
  | some (Value.vFile fname) =>
      let (evts₁, r₁) := deleteOldIfPresent oldVal σ
      (match r₁ with
       | .error e => (evts₁, .error e)
       | .ok σ₁ =>
           let filePath := String.intercalate "/"
             ["taskAttachments", workflowInstanceId, taskId, fieldName, fname]
           let (evts₂, σ₂, stored) := uploadFileToStorage σ₁ fname filePath
           (evts₁ ++ evts₂, .ok (σ₂, Value.vStr stored)))
  | _ =>
      match oldVal with
      | some (Value.vStr s) =>
          if isNullish newVal && (s ≠ "") then
            let (evts₁, r₁) := deleteFileFromStorage σ s
            (match r₁ with
             | .error e => (evts₁, .error e)
             | .ok σ₁ => (evts₁, .ok (σ₁, Value.vNull)))
          else taskFieldFallback newVal oldVal σ
      | _ => taskFieldFallback newVal oldVal σ

/-- The full reconciliation loop of `updateTaskDynamicData`: walks the
resolved table fields, rewriting the document-upload entries of
`processedDataForUpdate` (which starts as a copy of `newData`). -/
def reconcileTaskDocFields (workflowInstanceId taskId : String)
    (newData currentData : List (String × Value)) :
    List DynamicField → List (String × Value) → Storage →
    List StorageEvent × Except String (Storage × List (String × Value))
  | [], processed, σ => ([], .ok (σ, processed))
  | f :: rest, processed, σ =>
      if f.type = FieldType.documentUpload then
        let (evts₁, r₁) := processDocFieldTask workflowInstanceId taskId f.name
          (lookupVal newData f.name) (lookupVal currentData f.name) σ
        match r₁ with
        | .error e => (evts₁, .error e)
        | .ok (σ₁, v) =>
            let (evts₂, r₂) := reconcileTaskDocFields workflowInstanceId taskId
              newData currentData rest (setKey processed f.name v) σ₁
            (evts₁ ++ evts₂, r₂)
      else reconcileTaskDocFields workflowInstanceId taskId newData currentData rest processed σ

/-- Replace a task document in the `tasks` collection (an `updateDoc` merge
whose merged result is `t`). -/
def Store.updateTask (st : Store) (t : Task) : Store :=
  { st with tasks := st.tasks.map (fun x => if x.id = t.id then t else x) }

/-- The `fieldsForTable` resolution of `updateTaskDynamicData` (`data.ts`
717-726): the non-archived fields of the task's non-archived dynamic table,
or none when the task has no table or the table is missing or archived. -/
def taskFieldsForTable (st : Store) (task : Task) : List DynamicField :=
  match task.dynamicTableId with
  | some tid =>
      if tid ≠ "" then
        match st.dynamicTables.find? (fun dt => dt.id = tid) with
        | some tableDef =>
            if !tableDef.isArchived then
              st.dynamicFields.filter
                (fun f => tableDef.fieldIds.contains f.id && !f.isArchived)
            else []
        | none => []
      else []
  | none => []

/-- The data-processing step of `updateTaskDynamicData`: reconcile the
document-upload fields when the task's table resolved to any fields, otherwise
pass the submitted data through unchanged. -/
def taskReconcileStep (st : Store) (σ : Storage) (taskId : String)
    (newData currentTaskData : List (String × Value)) (task : Task) :
    List StorageEvent × Except String (Storage × List (String × Value)) :=
  if (taskFieldsForTable st task).length > 0 then
    reconcileTaskDocFields task.workflowInstanceId taskId newData currentTaskData
      (taskFieldsForTable st task) newData σ
  else ([], .ok (σ, newData))

/-- The merged task document written by `updateTaskDynamicData` (`data.ts`
753-765): the processed data, plus the Pending → InProgress transition
recording `startDatetime` when unset. -/
def taskAfterDataSave (task : Task) (processed : List (String × Value)) (now : Int) : Task :=
  { task with
    dynamicTableData := processed
    status := if task.status = TaskStatus.pending then TaskStatus.inProgress
              else task.status
    startDatetime :=
      if task.status = TaskStatus.pending && task.startDatetime = none then some now
      else task.startDatetime }

/-- `updateTaskDynamicData` (`data.ts` 707-769): resolves the task, resolves
the non-archived fields of its non-archived dynamic table, reconciles the
document-upload fields, then writes the processed data; a Pending task
transitions to InProgress, recording `startDatetime` when unset. -/
def updateTaskDynamicData (st : Store) (σ : Storage) (taskId : String)
    (newData currentTaskData : List (String × Value)) (now : Int) :
    List StorageEvent × Except String (Store × Storage × Task) :=
  match st.tasks.find? (fun t => t.id = taskId) with
  | none => ([], .error "Task not found")
  | some task =>
      match taskReconcileStep st σ taskId newData currentTaskData task with
      | (evts, .error e) => (evts, .error e)
      | (evts, .ok (σ₁, processed)) =>
          (evts, .ok (st.updateTask (taskAfterDataSave task processed now), σ₁,
            taskAfterDataSave task processed now))

/-- `completeTask` (`data.ts` 771-793): marks the task Completed with
`finishDatetime = now`; records `startDatetime` when the task was still
Pending with no `startDatetime`; attaches notes when a non-empty string is
given. -/
def completeTask (st : Store) (taskId : String) (notes : Option String) (now : Int) :
    Except String (Store × Task) :=
  match st.tasks.find? (fun t => t.id = taskId) with
  | none => .error "Task not found"
  | some task =>
      let task' : Task :=
        { task with
          status := TaskStatus.completed
          finishDatetime := some now
          notes := if optStrTruthy notes then notes else task.notes
          startDatetime :=
            if task.startDatetime = none && task.status = TaskStatus.pending then some now
            else task.startDatetime }
      .ok (st.updateTask task', task')

/-! ### Workflow-instance status update and the client completion check -/

/-- Replace a workflow-instance document in the store. -/
def Store.updateInstance (st : Store) (i : WorkflowInstance) : Store :=
  { st with workflowInstances :=
      st.workflowInstances.map (fun x => if x.id = i.id then i else x) }

/-- `updateWorkflowInstanceStatus` (`data.ts` 675-684): sets the status;
`finishDatetime` is written only when one is supplied and the new status is
Completed. -/
def updateWorkflowInstanceStatus (st : Store) (instanceId : String)
    (status : WorkflowInstanceStatus) (finishDatetime : Option Int) :
    Except String (Store × WorkflowInstance) :=
  match st.workflowInstances.find? (fun i => i.id = instanceId) with
  | none => .error "workflow instance not found"
  | some inst =>
      let inst' : WorkflowInstance :=
        { inst with
          status := status
          finishDatetime :=
            match finishDatetime with
            | some f =>
                if status = WorkflowInstanceStatus.completed then some f
                else inst.finishDatetime
            | none => inst.finishDatetime }
      .ok (st.updateInstance inst', inst')

/-- The client page state of `WorkflowInstanceDetailsPage` that
`handleTaskCompleted` reads and writes. -/
structure ClientState where
  inst : WorkflowInstance
  tasks : List Task
deriving DecidableEq, Repr

/-- `handleTaskCompleted` (`studio-master/src/app/workflows/[id]/page.tsx`
507-539): marks the completed task as Completed in the local task list; when
every task of the instance is now Completed and the instance is not yet
Completed, calls `updateWorkflowInstanceStatus` with status Completed and the
current time as `finishDatetime`.  A failed backend update leaves the local
instance unchanged (the catch branch). -/
def handleTaskCompleted (st : Store) (cs : ClientState) (completedTask : Task)
    (now : Int) : Store × ClientState :=
  let newTasks := cs.tasks.map (fun t =>
    if t.id = completedTask.id then
      { completedTask with status := TaskStatus.completed, finishDatetime := some now }
    else t)
  let allTasksAreNowComplete := newTasks.all (fun t => t.status = TaskStatus.completed)
  if allTasksAreNowComplete && cs.inst.status ≠ WorkflowInstanceStatus.completed then
    match updateWorkflowInstanceStatus st cs.inst.id WorkflowInstanceStatus.completed (some now) with
    | .ok (st', savedInstance) => (st', { inst := savedInstance, tasks := newTasks })
    | .error _ => (st, { cs with tasks := newTasks })
  else (st, { cs with tasks := newTasks })

/-! ### Default-value resolution
(`DynamicTableEntryDialog`, `dynamic-table-entry-dialog.tsx` 109-129, and
`TaskForm`, `studio-master/src/app/workflows/[id]/page.tsx` 126-147) -/

/-- Default-value resolution of `DynamicTableEntryDialog`: for each field with
no initial value, the configured default is used with a per-type fallback
(`?? false` for boolean toggles, `?? []` for checkbox groups, always `null`
for document uploads, `?? null` for numbers, `?? ''` otherwise). -/
def dialogDefaultValue (f : DynamicField) (initial : Option Value) : Option Value :=
  match initial with
  | some v => some v
  | none =>
      some (match f.type with
        | FieldType.booleanToggle => nullishCoalesce f.defaultValue (Value.vBool false)
        | FieldType.checkboxGroup => nullishCoalesce f.defaultValue (Value.vArr [])
        | FieldType.documentUpload => Value.vNull
        | FieldType.number => nullishCoalesce f.defaultValue Value.vNull
        | _ => nullishCoalesce f.defaultValue (Value.vStr ""))

/-- Default-value resolution of `TaskForm`: the per-type branch runs only when
`field.defaultValue !== undefined`; otherwise only document-upload fields are
assigned (to `null`) and every other field is left without a value. -/
def taskFormDefaultValue (f : DynamicField) (initial : Option Value) : Option Value :=
  match initial with
  | some v => some v
  | none =>
      match f.defaultValue with
      | some _ =>
          some (match f.type with
            | FieldType.booleanToggle => nullishCoalesce f.defaultValue (Value.vBool false)
            | FieldType.checkboxGroup => nullishCoalesce f.defaultValue (Value.vArr [])
            | FieldType.documentUpload => Value.vNull
            | FieldType.number => nullishCoalesce f.defaultValue Value.vNull
            | _ => nullishCoalesce f.defaultValue (Value.vStr ""))
      | none =>
          if f.type = FieldType.documentUpload then some Value.vNull else none

/-! ### Validation schema builder
(`createDynamicDataSchema`, `dynamic-table-entry-dialog.tsx` 24-76, and
`createDynamicTaskDataSchema`, `studio-master/src/app/workflows/[id]/page.tsx`
70-122).  A zod schema is modelled as the predicate it induces on a submitted
value, where the submitted value is an `Option Value` (`none` = the key is
undefined).  The zod email format check is a library black box and is passed
in as `emailCheck`. -/

/-- JavaScript `Number(x)` coercion as used by `z.coerce.number()`, restricted
to the integer fragment of this model (fractional and exotic numeric strings
are outside it; no claim depends on them). -/
def jsToNumber : Value → Option Int
  | Value.vNum n => some n
  | Value.vBool b => some (if b then 1 else 0)
  | Value.vNull => some 0
  | Value.vStr s => if s.trim = "" then some 0 else s.trim.toInt?
  | Value.vArr _ => none
  | Value.vFile _ => none

/-- The configured `min`/`max` bounds of a number field. -/
def boundsOk (f : DynamicField) (n : Int) : Bool :=
  (match f.ruleMin with | some m => decide (m ≤ n) | none => true) &&
  (match f.ruleMax with | some m => decide (n ≤ m) | none => true)

/-- The base (pre-required/optional) zod schema chosen by the `switch` on the
field type, as a predicate. -/
def zodBaseOk (emailCheck : String → Bool) (f : DynamicField) (v : Option Value) : Bool :=
  match f.type with
  | FieldType.textInput | FieldType.textArea | FieldType.dropdownList
  | FieldType.radioButtonGroup =>
      match v with
      | some (Value.vStr s) => !f.ruleEmail || emailCheck s
      | _ => false
  | FieldType.documentUpload => true
  | FieldType.number =>
      match v with
      | some Value.vNull => true
      | some w => (match jsToNumber w with
                   | some n => boundsOk f n
                   | none => false)
      | none => false
  | FieldType.date | FieldType.time | FieldType.datetime =>
      match v with
      | some (Value.vStr _) => true
      | _ => false
  | FieldType.checkboxGroup =>
      match v with
      | some (Value.vArr _) => true
      | _ => false
  | FieldType.booleanToggle =>
      match v with
      | some (Value.vBool _) => true
      | _ => false

/-- The field-type list of the first required branch (`.min(1)` string
types). -/
def requiredStringKinds : List FieldType :=
  [FieldType.textInput, FieldType.textArea, FieldType.dropdownList,
   FieldType.radioButtonGroup, FieldType.date, FieldType.time, FieldType.datetime]

/-- Whether a submitted value passes the field's schema as built by
`createDynamicDataSchema` (`dynamic-table-entry-dialog.tsx` 24-76). -/
def createDynamicDataSchemaCheck (emailCheck : String → Bool) (f : DynamicField)
    (v : Option Value) : Bool :=
  if f.isRequired then
    if requiredStringKinds.contains f.type then
      zodBaseOk emailCheck f v &&
        (match v with
         | some (Value.vStr s) => decide (1 ≤ s.length)
         | _ => false)
    else if f.type = FieldType.checkboxGroup then
      zodBaseOk emailCheck f v &&
        (match v with
         | some (Value.vArr xs) => !xs.isEmpty
         | _ => false)
    else if f.type = FieldType.documentUpload then
      zodBaseOk emailCheck f v && !isNullish v
    else if f.type = FieldType.number then
      zodBaseOk emailCheck f v && v ≠ none && v ≠ some Value.vNull
    else zodBaseOk emailCheck f v
  else zodBaseOk emailCheck f v || v = none || v = some Value.vNull

/-- Whether a submitted value passes the field's schema as built by
`createDynamicTaskDataSchema` (`studio-master/src/app/workflows/[id]/page.tsx`
70-122); the builder is a line-for-line duplicate of
`createDynamicDataSchema`. -/
def createDynamicTaskDataSchemaCheck (emailCheck : String → Bool) (f : DynamicField)
    (v : Option Value) : Bool :=
  if f.isRequired then
    if requiredStringKinds.contains f.type then
      zodBaseOk emailCheck f v &&
        (match v with
         | some (Value.vStr s) => decide (1 ≤ s.length)
         | _ => false)
    else if f.type = FieldType.checkboxGroup then
      zodBaseOk emailCheck f v &&
        (match v with
         | some (Value.vArr xs) => !xs.isEmpty
         | _ => false)
    else if f.type = FieldType.documentUpload then
      zodBaseOk emailCheck f v && !isNullish v
    else if f.type = FieldType.number then
      zodBaseOk emailCheck f v && v ≠ none && v ≠ some Value.vNull
    else zodBaseOk emailCheck f v
  else zodBaseOk emailCheck f v || v = none || v = some Value.vNull

/-! ### Specification predicate for materialized tasks -/

/-- What claim C1 asserts about one materialized task with respect to the task
template it came from: the task is Pending; its `dueDate` is the instance
start time plus the configured offset (in days) when a truthy offset is
configured and absent otherwise; its `dynamicTableData` is pre-seeded with the
associated table row's data exactly when the template references a dynamic
table, an association for that table was supplied, and the row exists and is
not archived — and is empty otherwise. -/
def TaskMatchesTemplate (st : Store) (assoc : Option (List (String × String)))
    (instId : String) (startDT : Int) (tt : TaskTemplate) (t : Task) : Prop :=
  t.status = TaskStatus.pending ∧
  t.taskTemplateId = tt.id ∧
  t.workflowInstanceId = instId ∧
  (∀ d, tt.dueDateOffsetDays = some d → d ≠ 0 →
      t.dueDate = some (startDT + d * 24 * 60 * 60 * 1000)) ∧
  ((tt.dueDateOffsetDays = none ∨ tt.dueDateOffsetDays = some 0) → t.dueDate = none) ∧
  (∀ tid rid, initialTaskData assoc tt = some (tid, rid) →
      (∀ row, st.findEntry tid rid = some row → row.isArchived = false →
          t.dynamicTableData = row.data) ∧
      (∀ row, st.findEntry tid rid = some row → row.isArchived = true →
          t.dynamicTableData = []) ∧
      (st.findEntry tid rid = none → t.dynamicTableData = [])) ∧
  (initialTaskData assoc tt = none → t.dynamicTableData = [])

/-! ### Concrete fixtures used by witness theorems -/

/-- A store holding one workflow template that references one task template
with a two-day due-date offset and a dynamic table association, plus the
associated table entry. -/
def sampleStore : Store :=
  { dynamicTables := [{ id := "tbl1", fieldIds := ["f1"] }]
    entries := [("tbl1", { id := "row1", data := [("CustomerName", Value.vStr "Acme")] })]
    taskTemplates := [{ id := "tt1", dueDateOffsetDays := some 2, dynamicTableId := some "tbl1" }]
    workflowTemplates := [{ id := "wt1", taskTemplateIds := ["tt1"] }] }

/-- The creation payload used by witness theorems: it associates table `tbl1`
with entry `row1`. -/
def samplePayload : AddWorkflowInstancePayload :=
  { workflowTemplateId := "wt1"
    name := "instance one"
    associatedData := some [("tbl1", "row1")]
    taskAssignments := [("tt1", "user1")] }

/-- A payload whose workflow-template id resolves to nothing. -/
def orphanPayload : AddWorkflowInstancePayload :=
  { workflowTemplateId := "missing", name := "orphan" }

/-- A store with one Pending task attached to one Active instance, used by the
status-machine witnesses. -/
def sampleTaskStore : Store :=
  { workflowInstances :=
      [{ id := "wf1", workflowTemplateId := "wt1", name := "instance one",
         status := WorkflowInstanceStatus.active, startDatetime := 0, createdAt := 0 }]
    tasks :=
      [{ id := "task1", taskTemplateId := "tt1", workflowInstanceId := "wf1",
         status := TaskStatus.pending, createdAt := 0 }] }

/-! ## Theorems -/

section Lemmas

/-- Searching a concatenation when the first part has no hit. -/
theorem find?_append_of_none {α : Type} (p : α → Bool) {l₁ : List α} (l₂ : List α)
    (h : l₁.find? p = none) : (l₁ ++ l₂).find? p = l₂.find? p := by
  induction l₁ with
  | nil => rfl
  | cons a l ih =>
      cases hpa : p a with
      | true => simp [List.find?, hpa] at h
      | false =>
          simp only [List.find?, hpa] at h
          simpa [List.find?, hpa] using ih h

/-- Committing a list of task writes appends exactly those tasks. -/
theorem commitBatch_putTasks (st : Store) (ts : List Task) :
    st.commitBatch (ts.map BatchWrite.putTask) = { st with tasks := st.tasks ++ ts } := by
  induction ts generalizing st with
  | nil => simp [Store.commitBatch]
  | cons t rest ih =>
      simp only [List.map, Store.commitBatch, List.foldl] at ih ⊢
      rw [show st.applyWrite (BatchWrite.putTask t) = { st with tasks := st.tasks ++ [t] } from rfl,
        ih]
      simp

/-- Committing the instance write followed by the task writes appends the
instance and the tasks. -/
theorem commitBatch_instance_tasks (st : Store) (i : WorkflowInstance) (ts : List Task) :
    st.commitBatch (BatchWrite.putInstance i :: ts.map BatchWrite.putTask) =
      { st with workflowInstances := st.workflowInstances ++ [i],
                tasks := st.tasks ++ ts } := by
  show Store.commitBatch (st.applyWrite (BatchWrite.putInstance i)) (ts.map BatchWrite.putTask) = _
  rw [commitBatch_putTasks]
  rfl

/-- With no read failures, task materialization succeeds and the produced
tasks correspond one-to-one, in order, with the non-archived task templates
resolved from the id list. -/
theorem materializeTasks_noFail (st : Store) (payload : AddWorkflowInstancePayload)
    (now : Int) (instId : String) (ftid : Nat → String) (ids : List String) :
    ∀ idx : Nat,
      ∃ ts, materializeTasks st (fun _ => false) payload now instId ftid ids idx = .ok ts ∧
        List.Forall₂ (TaskMatchesTemplate st payload.associatedData instId now)
          (ids.filterMap
            (fun ttid => st.taskTemplates.find? (fun tt => tt.id = ttid && !tt.isArchived)))
          ts := by
  induction ids with
  | nil => intro idx; exact ⟨[], rfl, List.Forall₂.nil⟩
  | cons ttid rest ih =>
      intro idx
      cases hfind : st.taskTemplates.find? (fun tt => tt.id = ttid && !tt.isArchived) with
      | none =>
          obtain ⟨ts, hts, hfa⟩ := ih idx
          exact ⟨ts, by simp [materializeTasks, hfind, hts], by simp [hfind, hfa]⟩
      | some tt =>
          obtain ⟨ts, hts, hfa⟩ := ih (idx + 1)
          refine ⟨buildTask (ftid idx) instId payload now tt
            (match initialTaskData payload.associatedData tt with
             | some (tid, rid) =>
                 (match st.findEntry tid rid with
                  | some row => if !row.isArchived then row.data else []
                  | none => [])
             | none => []) :: ts, ?_, ?_⟩
          · simp only [materializeTasks, hfind, hts]
            cases hinit : initialTaskData payload.associatedData tt with
            | none => simp [hinit]
            | some pr => cases pr with
              | mk tid rid => simp [hinit]
          · simp only [List.filterMap_cons, hfind]
            refine List.Forall₂.cons ?_ hfa
            refine ⟨rfl, rfl, rfl, ?_, ?_, ?_, ?_⟩
            · intro d hd hdne
              simp [buildTask, hd, hdne]
            · intro hd
              rcases hd with hd | hd <;> simp [buildTask, hd]
            · intro tid rid hinit
              refine ⟨?_, ?_, ?_⟩
              · intro row hrow harch
                simp [buildTask, hinit, hrow, harch]
              · intro row hrow harch
                simp [buildTask, hinit, hrow, harch]
              · intro hrow
                simp [buildTask, hinit, hrow]
            · intro hinit
              simp [buildTask, hinit]

/-- Every task produced by the materialization loop, under any failure
oracle, has status Pending. -/
theorem materializeTasks_pending (st : Store) (fails : ReadOp → Bool)
    (payload : AddWorkflowInstancePayload) (now : Int) (instId : String)
    (ftid : Nat → String) (ids : List String) :
    ∀ (idx : Nat) (ts : List Task),
      materializeTasks st fails payload now instId ftid ids idx = .ok ts →
      ∀ t ∈ ts, t.status = TaskStatus.pending := by
  induction ids with
  | nil =>
      intro idx ts h t ht
      simp only [materializeTasks] at h
      cases h
      simp at ht
  | cons ttid rest ih =>
      intro idx ts h t ht
      simp only [materializeTasks] at h
      cases hfind : st.taskTemplates.find? (fun tt => tt.id = ttid && !tt.isArchived) with
      | none =>
          simp only [hfind] at h
          exact ih idx ts h t ht
      | some tt =>
          simp only [hfind] at h
          rcases hread : (match initialTaskData payload.associatedData tt with
            | some (tid, rid) =>
                if fails (.getTableEntry tid rid) then
                  Except.error "table entry read failed"
                else
                  Except.ok (match st.findEntry tid rid with
                       | some row => if !row.isArchived then row.data else []
                       | none => [])
            | none => Except.ok ([] : List (String × Value))) with e | idata
          · rw [hread] at h; cases h
          · rw [hread] at h
            rcases hrest : materializeTasks st fails payload now instId ftid rest (idx + 1) with
              e | ts'
            · rw [hrest] at h; cases h
            · rw [hrest] at h
              cases h
              rcases List.mem_cons.mp ht with rfl | hmem
              · rfl
              · exact ih (idx + 1) ts' hrest t hmem

end Lemmas

/-- C10: when the payload's `workflowTemplateId` resolves to no workflow
template, `addWorkflowInstance` does not fail: it still commits and returns a
new Active workflow instance, and creates no task records (the store gains the
instance and nothing else). -/
theorem addWorkflowInstance_unknown_template_still_commits
    (st : Store) (payload : AddWorkflowInstancePayload) (now : Int)
    (uid : Option String) (iid : String) (ftid : Nat → String)
    (hTpl : st.workflowTemplates.find?
      (fun t => t.id = payload.workflowTemplateId) = none)
    (hFresh : ∀ i ∈ st.workflowInstances, i.id ≠ iid) :
    ∃ inst,
      addWorkflowInstance st (fun _ => false) payload now uid iid ftid =
        ({ st with workflowInstances := st.workflowInstances ++ [inst] }, .ok inst) ∧
      inst.status = WorkflowInstanceStatus.active ∧
      inst.id = iid := by
  have hnone : st.workflowInstances.find? (fun i => i.id = iid) = none :=
    List.find?_eq_none.mpr (fun x hx => by simpa using hFresh x hx)
  refine ⟨builtInstance payload now uid iid, ?_, rfl, rfl⟩
  unfold addWorkflowInstance
  simp only [readMaterializedTasks, hTpl, Bool.false_eq_true, if_false]
  rw [commitBatch_instance_tasks]
  rw [find?_append_of_none _ _ hnone]
  simp [List.find?, builtInstance]

/-- C10 witness: the unknown-template payload on the sample store commits an
Active instance with no tasks. -/
theorem addWorkflowInstance_unknown_template_still_commits_witness :
    ∃ inst,
      addWorkflowInstance sampleStore (fun _ => false) orphanPayload 7 none "i1"
          (fun n => "t" ++ toString n) =
        ({ sampleStore with
            workflowInstances := sampleStore.workflowInstances ++ [inst] }, .ok inst) ∧
      inst.status = WorkflowInstanceStatus.active ∧
      inst.id = "i1" :=
  addWorkflowInstance_unknown_template_still_commits sampleStore orphanPayload 7 none "i1"
    (fun n => "t" ++ toString n) (by decide) (by simp [sampleStore])

/-- C2: workflow-instance creation is atomic.  All writes are buffered in one
batch and applied only at commit, so whenever `addWorkflowInstance` returns an
error — a failed template read, task-template listing, table-entry read during
task materialization, or a failed commit — the store is unchanged: neither the
instance nor any task record persists. -/
theorem addWorkflowInstance_error_leaves_store_unchanged
    (st : Store) (fails : ReadOp → Bool) (payload : AddWorkflowInstancePayload)
    (now : Int) (uid : Option String) (iid : String) (ftid : Nat → String) (e : String)
    (h : (addWorkflowInstance st fails payload now uid iid ftid).2 = .error e) :
    (addWorkflowInstance st fails payload now uid iid ftid).1 = st := by
  unfold addWorkflowInstance at h ⊢
  by_cases h1 : fails (ReadOp.getTemplate payload.workflowTemplateId)
  · simp [h1]
  · simp only [h1, Bool.false_eq_true, if_false] at h ⊢
    cases hr : readMaterializedTasks st fails payload now iid ftid with
    | error e' => simp [hr]
    | ok ts =>
        simp only [hr] at h ⊢
        by_cases h2 : fails ReadOp.commit
        · simp [h2]
        · simp only [h2, Bool.false_eq_true, if_false] at h ⊢
          rw [commitBatch_instance_tasks] at h ⊢
          cases hf : (st.workflowInstances ++ [builtInstance payload now uid iid]).find?
              (fun i => i.id = iid) with
          | none =>
              exfalso
              have hmem : builtInstance payload now uid iid ∈
                  st.workflowInstances ++ [builtInstance payload now uid iid] :=
                List.mem_append.mpr (Or.inr (List.mem_singleton.mpr rfl))
              have := List.find?_eq_none.mp hf _ hmem
              simp [builtInstance] at this
          | some created => simp [hf] at h


/-- C2 witness: with the task-template listing failing in transit on the
sample store, creation reports an error and the store is exactly the input
store. -/
theorem addWorkflowInstance_error_leaves_store_unchanged_witness :
    (addWorkflowInstance sampleStore
        (fun op => op = ReadOp.listTaskTemplates) samplePayload 5 none "i1"
        (fun n => "t" ++ toString n)).2 = .error "task templates read failed" ∧
    (addWorkflowInstance sampleStore
        (fun op => op = ReadOp.listTaskTemplates) samplePayload 5 none "i1"
        (fun n => "t" ++ toString n)).1 = sampleStore :=
  ⟨by rfl,
   addWorkflowInstance_error_leaves_store_unchanged sampleStore
     (fun op => op = ReadOp.listTaskTemplates) samplePayload 5 none "i1"
     (fun n => "t" ++ toString n) "task templates read failed" (by rfl)⟩

/-- C1: creating a workflow instance from an existing workflow template
materializes, beyond the new instance record, exactly one Pending task per
non-archived task template resolved from the template's `taskTemplateIds`, in
order; each task's `dueDate` is the instance's `startDatetime` plus the
configured offset in days when a truthy offset is configured (and absent
otherwise), and its `dynamicTableData` is pre-seeded with the associated table
row's data exactly when the task template references a dynamic table, an
association for that table was supplied, and that row exists and is not
archived (otherwise it is empty). -/
theorem addWorkflowInstance_materializes_tasks
    (st : Store) (payload : AddWorkflowInstancePayload) (now : Int)
    (uid : Option String) (iid : String) (ftid : Nat → String) (tpl : WorkflowTemplate)
    (hTpl : st.workflowTemplates.find?
      (fun t => t.id = payload.workflowTemplateId) = some tpl)
    (hFresh : ∀ i ∈ st.workflowInstances, i.id ≠ iid) :
    ∃ inst newTasks,
      addWorkflowInstance st (fun _ => false) payload now uid iid ftid =
        ({ st with workflowInstances := st.workflowInstances ++ [inst],
                   tasks := st.tasks ++ newTasks }, .ok inst) ∧
      inst.startDatetime = now ∧
      inst.id = iid ∧
      List.Forall₂ (TaskMatchesTemplate st payload.associatedData iid inst.startDatetime)
        (tpl.taskTemplateIds.filterMap
          (fun ttid => st.taskTemplates.find? (fun tt => tt.id = ttid && !tt.isArchived)))
        newTasks := by
  obtain ⟨ts, hts, hfa⟩ :=
    materializeTasks_noFail st payload now iid ftid tpl.taskTemplateIds 0
  have hnone : st.workflowInstances.find? (fun i => i.id = iid) = none :=
    List.find?_eq_none.mpr (fun x hx => by simpa using hFresh x hx)
  refine ⟨builtInstance payload now uid iid, ts, ?_, rfl, rfl, hfa⟩
  unfold addWorkflowInstance
  simp only [readMaterializedTasks, hTpl, Bool.false_eq_true, if_false, hts]
  rw [commitBatch_instance_tasks]
  rw [find?_append_of_none _ _ hnone]
  simp [List.find?, builtInstance]

/-- C1 witness: on the sample store, creating an instance of template `wt1`
yields the instance plus one matching Pending task. -/
theorem addWorkflowInstance_materializes_tasks_witness :
    ∃ inst newTasks,
      addWorkflowInstance sampleStore (fun _ => false) samplePayload 5 none "i1"
          (fun n => "t" ++ toString n) =
        ({ sampleStore with
            workflowInstances := sampleStore.workflowInstances ++ [inst],
            tasks := sampleStore.tasks ++ newTasks }, .ok inst) ∧
      inst.startDatetime = 5 ∧
      inst.id = "i1" ∧
      List.Forall₂
        (TaskMatchesTemplate sampleStore samplePayload.associatedData "i1" inst.startDatetime)
        ((["tt1"] : List String).filterMap
          (fun ttid => sampleStore.taskTemplates.find?
            (fun tt => tt.id = ttid && !tt.isArchived)))
        newTasks :=
  addWorkflowInstance_materializes_tasks sampleStore samplePayload 5 none "i1"
    (fun n => "t" ++ toString n) { id := "wt1", taskTemplateIds := ["tt1"] }
    (by decide) (by simp [sampleStore])

/-- Evaluation of `deleteFileFromStorage` on a non-blank path: one delete call,
and success whether or not the object was stored. -/
theorem deleteFileFromStorage_eq (σ : Storage) (p : String) (hp : isBlankPath p = false) :
    deleteFileFromStorage σ p =
      ([StorageEvent.deleteObj p], .ok (if p ∈ σ then σ.erase p else σ)) := by
  unfold deleteFileFromStorage deleteObject
  by_cases hm : p ∈ σ <;> simp [hp, hm]

/-- A non-blank path is a non-empty string. -/
theorem ne_empty_of_not_blank {p : String} (hp : isBlankPath p = false) : p ≠ "" :=
  fun h => by subst h; exact absurd hp (by decide)

/-- C3 counterexample: in the entry codec, an absent (undefined) new value for
a document-upload field with old stored path `files/a.png` deletes the old
object and persists `null` — not the old path, and not without deletion. -/
theorem absent_doc_value_not_preserved_cex :
    processDocFieldEntry "tbl1" "row1" "doc" none (some (Value.vStr "files/a.png"))
        ["files/a.png"] =
      ([StorageEvent.deleteObj "files/a.png"], .ok (([] : Storage), Value.vNull)) ∧
    Value.vNull ≠ Value.vStr "files/a.png" :=
  ⟨by rfl, by decide⟩

/-- C3 amended: in both `updateDynamicTableEntry` and `updateTaskDynamicData`,
a document-upload field whose new value set contains no value at all (the key
is absent/undefined) is treated like an explicit clear: when the old stored
path is a non-empty (non-blank) string, the old object is deleted and the
persisted value is `null`; when there is no old value, nothing is deleted and
the persisted value is `null`. -/
theorem absent_doc_value_treated_as_clear
    (tableId entryId wfInstId taskId fieldName p : String) (σ : Storage)
    (hp : isBlankPath p = false) :
    (processDocFieldEntry tableId entryId fieldName none (some (Value.vStr p)) σ =
        ([StorageEvent.deleteObj p], .ok ((if p ∈ σ then σ.erase p else σ), Value.vNull))) ∧
    (processDocFieldTask wfInstId taskId fieldName none (some (Value.vStr p)) σ =
        ([StorageEvent.deleteObj p], .ok ((if p ∈ σ then σ.erase p else σ), Value.vNull))) ∧
    (processDocFieldEntry tableId entryId fieldName none none σ =
        ([], .ok (σ, Value.vNull))) ∧
    (processDocFieldTask wfInstId taskId fieldName none none σ =
        ([], .ok (σ, Value.vNull))) := by
  have hp0 : p ≠ "" := ne_empty_of_not_blank hp
  refine ⟨?_, ?_, ?_, ?_⟩
  · simp [processDocFieldEntry, isNullish, deleteOldIfPresent, hp0,
      deleteFileFromStorage_eq _ _ hp]
  · simp [processDocFieldTask, isNullish, hp0, deleteFileFromStorage_eq _ _ hp]
  · simp [processDocFieldEntry, isNullish, deleteOldIfPresent, jsOrNull]
  · simp [processDocFieldTask, taskFieldFallback, isNullish, jsOrNull]

/-- C3 amended witness: concrete run with old path `files/a.png` stored. -/
theorem absent_doc_value_treated_as_clear_witness :
    (processDocFieldEntry "tbl1" "row1" "doc" none (some (Value.vStr "files/a.png"))
        ["files/a.png"] =
      ([StorageEvent.deleteObj "files/a.png"],
       .ok ((if "files/a.png" ∈ (["files/a.png"] : Storage) then
              (["files/a.png"] : Storage).erase "files/a.png" else ["files/a.png"]),
            Value.vNull))) ∧
    (processDocFieldTask "wf1" "task1" "doc" none (some (Value.vStr "files/a.png"))
        ["files/a.png"] =
      ([StorageEvent.deleteObj "files/a.png"],
       .ok ((if "files/a.png" ∈ (["files/a.png"] : Storage) then
              (["files/a.png"] : Storage).erase "files/a.png" else ["files/a.png"]),
            Value.vNull))) ∧
    (processDocFieldEntry "tbl1" "row1" "doc" none none ["files/a.png"] =
        ([], .ok ((["files/a.png"] : Storage), Value.vNull))) ∧
    (processDocFieldTask "wf1" "task1" "doc" none none ["files/a.png"] =
        ([], .ok ((["files/a.png"] : Storage), Value.vNull))) :=
  absent_doc_value_treated_as_clear "tbl1" "row1" "wf1" "task1" "doc" "files/a.png"
    ["files/a.png"] (by decide)

/-- C4: in both codecs, a fresh `File` submitted over a non-empty (non-blank)
old stored path first deletes the old path, then uploads the payload to the
deterministic path `{entity-kind}/{entity-id...}/{field-name}/{file-name}`,
and the persisted value for the field is exactly that new storage path. -/
theorem fresh_file_upload_replaces_old
    (tableId entryId wfInstId taskId fieldName fname old : String) (σ : Storage)
    (hold : isBlankPath old = false) :
    (processDocFieldEntry tableId entryId fieldName (some (Value.vFile fname))
        (some (Value.vStr old)) σ =
      ([StorageEvent.deleteObj old,
        StorageEvent.uploadObj fname
          (String.intercalate "/" ["dynamicTableEntries", tableId, entryId, fieldName, fname])],
       .ok ((String.intercalate "/" ["dynamicTableEntries", tableId, entryId, fieldName, fname])
              :: (if old ∈ σ then σ.erase old else σ),
            Value.vStr (String.intercalate "/"
              ["dynamicTableEntries", tableId, entryId, fieldName, fname])))) ∧
    (processDocFieldTask wfInstId taskId fieldName (some (Value.vFile fname))
        (some (Value.vStr old)) σ =
      ([StorageEvent.deleteObj old,
        StorageEvent.uploadObj fname
          (String.intercalate "/" ["taskAttachments", wfInstId, taskId, fieldName, fname])],
       .ok ((String.intercalate "/" ["taskAttachments", wfInstId, taskId, fieldName, fname])
              :: (if old ∈ σ then σ.erase old else σ),
            Value.vStr (String.intercalate "/"
              ["taskAttachments", wfInstId, taskId, fieldName, fname])))) := by
  have hold0 : old ≠ "" := ne_empty_of_not_blank hold
  constructor
  · simp [processDocFieldEntry, deleteOldIfPresent, hold0,
      deleteFileFromStorage_eq _ _ hold, uploadFileToStorage]
  · simp [processDocFieldTask, deleteOldIfPresent, hold0,
      deleteFileFromStorage_eq _ _ hold, uploadFileToStorage]

/-- C4 witness: replacing `files/a.png` with a fresh file `b.png` in both
codecs. -/
theorem fresh_file_upload_replaces_old_witness :
    (processDocFieldEntry "tbl1" "row1" "doc" (some (Value.vFile "b.png"))
        (some (Value.vStr "files/a.png")) ["files/a.png"] =
      ([StorageEvent.deleteObj "files/a.png",
        StorageEvent.uploadObj "b.png"
          (String.intercalate "/" ["dynamicTableEntries", "tbl1", "row1", "doc", "b.png"])],
       .ok ((String.intercalate "/" ["dynamicTableEntries", "tbl1", "row1", "doc", "b.png"])
              :: (if "files/a.png" ∈ (["files/a.png"] : Storage) then
                    (["files/a.png"] : Storage).erase "files/a.png" else ["files/a.png"]),
            Value.vStr (String.intercalate "/"
              ["dynamicTableEntries", "tbl1", "row1", "doc", "b.png"])))) ∧
    (processDocFieldTask "wf1" "task1" "doc" (some (Value.vFile "b.png"))
        (some (Value.vStr "files/a.png")) ["files/a.png"] =
      ([StorageEvent.deleteObj "files/a.png",
        StorageEvent.uploadObj "b.png"
          (String.intercalate "/" ["taskAttachments", "wf1", "task1", "doc", "b.png"])],
       .ok ((String.intercalate "/" ["taskAttachments", "wf1", "task1", "doc", "b.png"])
              :: (if "files/a.png" ∈ (["files/a.png"] : Storage) then
                    (["files/a.png"] : Storage).erase "files/a.png" else ["files/a.png"]),
            Value.vStr (String.intercalate "/"
              ["taskAttachments", "wf1", "task1", "doc", "b.png"])))) :=
  fresh_file_upload_replaces_old "tbl1" "row1" "wf1" "task1" "doc" "b.png" "files/a.png"
    ["files/a.png"] (by decide)

/-- C5: in both codecs, a `null` new value over a non-blank old stored path
deletes the old object and persists `null`; and deletion of a missing object
is not an error — `deleteObject` reports `storage/object-not-found` for an
absent path, yet `deleteFileFromStorage` swallows exactly that error and
returns successfully with the storage unchanged. -/
theorem null_doc_value_deletes_and_missing_delete_ok
    (tableId entryId wfInstId taskId fieldName p : String) (σ σ₂ : Storage)
    (hp : isBlankPath p = false) (habs : p ∉ σ₂) :
    (processDocFieldEntry tableId entryId fieldName (some Value.vNull)
        (some (Value.vStr p)) σ =
      ([StorageEvent.deleteObj p],
       .ok ((if p ∈ σ then σ.erase p else σ), Value.vNull))) ∧
    (processDocFieldTask wfInstId taskId fieldName (some Value.vNull)
        (some (Value.vStr p)) σ =
      ([StorageEvent.deleteObj p],
       .ok ((if p ∈ σ then σ.erase p else σ), Value.vNull))) ∧
    deleteObject σ₂ p = .error "storage/object-not-found" ∧
    deleteFileFromStorage σ₂ p = ([StorageEvent.deleteObj p], .ok σ₂) := by
  have hp0 : p ≠ "" := ne_empty_of_not_blank hp
  refine ⟨?_, ?_, ?_, ?_⟩
  · simp [processDocFieldEntry, isNullish, deleteOldIfPresent, hp0,
      deleteFileFromStorage_eq _ _ hp]
  · simp [processDocFieldTask, isNullish, hp0, deleteFileFromStorage_eq _ _ hp]
  · simp [deleteObject, habs]
  · rw [deleteFileFromStorage_eq _ _ hp]
    simp [habs]

/-- C5 witness: clearing `files/a.png` and deleting it again once absent. -/
theorem null_doc_value_deletes_and_missing_delete_ok_witness :
    (processDocFieldEntry "tbl1" "row1" "doc" (some Value.vNull)
        (some (Value.vStr "files/a.png")) ["files/a.png"] =
      ([StorageEvent.deleteObj "files/a.png"],
       .ok ((if "files/a.png" ∈ (["files/a.png"] : Storage) then
              (["files/a.png"] : Storage).erase "files/a.png" else ["files/a.png"]),
            Value.vNull))) ∧
    (processDocFieldTask "wf1" "task1" "doc" (some Value.vNull)
        (some (Value.vStr "files/a.png")) ["files/a.png"] =
      ([StorageEvent.deleteObj "files/a.png"],
       .ok ((if "files/a.png" ∈ (["files/a.png"] : Storage) then
              (["files/a.png"] : Storage).erase "files/a.png" else ["files/a.png"]),
            Value.vNull))) ∧
    deleteObject ([] : Storage) "files/a.png" = .error "storage/object-not-found" ∧
    deleteFileFromStorage ([] : Storage) "files/a.png" =
      ([StorageEvent.deleteObj "files/a.png"], .ok ([] : Storage)) :=
  null_doc_value_deletes_and_missing_delete_ok "tbl1" "row1" "wf1" "task1" "doc"
    "files/a.png" ["files/a.png"] [] (by decide) (by decide)

/-- A non-empty string has length at least one. -/
theorem one_le_length_of_ne {s : String} (h : s ≠ "") : 1 ≤ s.length := by
  have hz : s.length ≠ 0 := fun hz => h (by
    cases s with
    | mk data => cases data with
      | nil => rfl
      | cons a l => simp [String.length] at hz)
  omega

/-- C6 counterexample: in `TaskForm`, a boolean-toggle field with no initial
value and no configured default resolves to no value at all, not to `false`. -/
theorem taskform_missing_default_not_coerced_cex :
    taskFormDefaultValue
      { id := "f1", name := "flag", type := FieldType.booleanToggle,
        isRequired := false } none = none ∧
    (none : Option Value) ≠ some (Value.vBool false) :=
  ⟨rfl, by decide⟩

/-- C6 amended: with no initial value and no configured default, the entry
dialog resolves defaults per the type table (boolean-toggle → `false`,
checkbox-group → `[]`, document-upload → `null`, number → `null`, others →
`""`), and document-upload fields resolve to `null` in both forms regardless
of any configured default; `TaskForm`, however, applies the per-type coercion
only when a configured default exists — with none, it assigns only
document-upload fields (to `null`) and leaves every other field unset. -/
theorem default_value_resolution (f : DynamicField) (hd : f.defaultValue = none) :
    (dialogDefaultValue f none =
      some (match f.type with
        | FieldType.booleanToggle => Value.vBool false
        | FieldType.checkboxGroup => Value.vArr []
        | FieldType.documentUpload => Value.vNull
        | FieldType.number => Value.vNull
        | _ => Value.vStr "")) ∧
    (taskFormDefaultValue f none =
      if f.type = FieldType.documentUpload then some Value.vNull else none) ∧
    (∀ g : DynamicField, g.type = FieldType.documentUpload →
      dialogDefaultValue g none = some Value.vNull ∧
      taskFormDefaultValue g none = some Value.vNull) := by
  refine ⟨?_, ?_, ?_⟩
  · cases htype : f.type <;> simp [dialogDefaultValue, hd, nullishCoalesce, htype]
  · cases htype : f.type <;> simp [taskFormDefaultValue, hd, htype]
  · intro g hg
    constructor
    · simp [dialogDefaultValue, hg]
    · cases hgd : g.defaultValue <;> simp [taskFormDefaultValue, hg, hgd]

/-- C6 amended witness: a boolean-toggle field with no configured default. -/
theorem default_value_resolution_witness :
    (dialogDefaultValue
        { id := "f1", name := "flag", type := FieldType.booleanToggle,
          isRequired := false } none =
      some (match FieldType.booleanToggle with
        | FieldType.booleanToggle => Value.vBool false
        | FieldType.checkboxGroup => Value.vArr []
        | FieldType.documentUpload => Value.vNull
        | FieldType.number => Value.vNull
        | _ => Value.vStr "")) ∧
    (taskFormDefaultValue
        { id := "f1", name := "flag", type := FieldType.booleanToggle,
          isRequired := false } none =
      if FieldType.booleanToggle = FieldType.documentUpload then some Value.vNull
      else none) ∧
    (∀ g : DynamicField, g.type = FieldType.documentUpload →
      dialogDefaultValue g none = some Value.vNull ∧
      taskFormDefaultValue g none = some Value.vNull) :=
  default_value_resolution
    { id := "f1", name := "flag", type := FieldType.booleanToggle, isRequired := false }
    rfl

/-- C7: in both runtime-built validators, a required plain text field (no
email rule configured) rejects the empty string and accepts every non-empty
string, and a required checkbox-group field rejects the empty array and
accepts every array with at least one element. -/
theorem required_text_and_checkbox_validation
    (emailCheck : String → Bool) (f g : DynamicField)
    (hf : f.type = FieldType.textInput) (hfr : f.isRequired = true)
    (hfe : f.ruleEmail = false)
    (hg : g.type = FieldType.checkboxGroup) (hgr : g.isRequired = true) :
    (createDynamicDataSchemaCheck emailCheck f (some (Value.vStr "")) = false) ∧
    (∀ s : String, s ≠ "" →
      createDynamicDataSchemaCheck emailCheck f (some (Value.vStr s)) = true) ∧
    (createDynamicDataSchemaCheck emailCheck g (some (Value.vArr [])) = false) ∧
    (∀ xs : List String, xs ≠ [] →
      createDynamicDataSchemaCheck emailCheck g (some (Value.vArr xs)) = true) ∧
    (createDynamicTaskDataSchemaCheck emailCheck f (some (Value.vStr "")) = false) ∧
    (∀ s : String, s ≠ "" →
      createDynamicTaskDataSchemaCheck emailCheck f (some (Value.vStr s)) = true) ∧
    (createDynamicTaskDataSchemaCheck emailCheck g (some (Value.vArr [])) = false) ∧
    (∀ xs : List String, xs ≠ [] →
      createDynamicTaskDataSchemaCheck emailCheck g (some (Value.vArr xs)) = true) := by
  refine ⟨?_, ?_, ?_, ?_, ?_, ?_, ?_, ?_⟩
  · simp [createDynamicDataSchemaCheck, zodBaseOk, requiredStringKinds, hf, hfr, hfe]
  · intro s hs
    simp [createDynamicDataSchemaCheck, zodBaseOk, requiredStringKinds, hf, hfr, hfe,
      one_le_length_of_ne hs]
  · simp [createDynamicDataSchemaCheck, zodBaseOk, requiredStringKinds, hg, hgr]
  · intro xs hxs
    simp [createDynamicDataSchemaCheck, zodBaseOk, requiredStringKinds, hg, hgr, hxs]
  · simp [createDynamicTaskDataSchemaCheck, zodBaseOk, requiredStringKinds, hf, hfr, hfe]
  · intro s hs
    simp [createDynamicTaskDataSchemaCheck, zodBaseOk, requiredStringKinds, hf, hfr, hfe,
      one_le_length_of_ne hs]
  · simp [createDynamicTaskDataSchemaCheck, zodBaseOk, requiredStringKinds, hg, hgr]
  · intro xs hxs
    simp [createDynamicTaskDataSchemaCheck, zodBaseOk, requiredStringKinds, hg, hgr, hxs]

/-- C7 witness: a concrete required text field and required checkbox-group
field, with values `""`, `"x"`, `[]` and `["a"]`. -/
theorem required_text_and_checkbox_validation_witness :
    (createDynamicDataSchemaCheck (fun _ => true)
        { id := "f1", name := "t", type := FieldType.textInput, isRequired := true }
        (some (Value.vStr "")) = false) ∧
    (∀ s : String, s ≠ "" →
      createDynamicDataSchemaCheck (fun _ => true)
        { id := "f1", name := "t", type := FieldType.textInput, isRequired := true }
        (some (Value.vStr s)) = true) ∧
    (createDynamicDataSchemaCheck (fun _ => true)
        { id := "f2", name := "c", type := FieldType.checkboxGroup, isRequired := true }
        (some (Value.vArr [])) = false) ∧
    (∀ xs : List String, xs ≠ [] →
      createDynamicDataSchemaCheck (fun _ => true)
        { id := "f2", name := "c", type := FieldType.checkboxGroup, isRequired := true }
        (some (Value.vArr xs)) = true) ∧
    (createDynamicTaskDataSchemaCheck (fun _ => true)
        { id := "f1", name := "t", type := FieldType.textInput, isRequired := true }
        (some (Value.vStr "")) = false) ∧
    (∀ s : String, s ≠ "" →
      createDynamicTaskDataSchemaCheck (fun _ => true)
        { id := "f1", name := "t", type := FieldType.textInput, isRequired := true }
        (some (Value.vStr s)) = true) ∧
    (createDynamicTaskDataSchemaCheck (fun _ => true)
        { id := "f2", name := "c", type := FieldType.checkboxGroup, isRequired := true }
        (some (Value.vArr [])) = false) ∧
    (∀ xs : List String, xs ≠ [] →
      createDynamicTaskDataSchemaCheck (fun _ => true)
        { id := "f2", name := "c", type := FieldType.checkboxGroup, isRequired := true }
        (some (Value.vArr xs)) = true) :=
  required_text_and_checkbox_validation (fun _ => true)
    { id := "f1", name := "t", type := FieldType.textInput, isRequired := true }
    { id := "f2", name := "c", type := FieldType.checkboxGroup, isRequired := true }
    rfl rfl rfl rfl rfl

/-- C8: the task status machine.  A task materialized at instance creation
begins Pending; a data save (`updateTaskDynamicData`) on a Pending task
transitions it to InProgress, recording `startDatetime` when unset and keeping
it when set, and leaves the status and `startDatetime` unchanged on a
non-Pending task; the complete action (`completeTask`) sets the status to
Completed and `finishDatetime` to now, and on a Pending task with no
`startDatetime` it also records `startDatetime`. -/
theorem task_status_machine
    (st : Store) (σ : Storage) (taskId : String)
    (newData currentTaskData : List (String × Value)) (now : Int)
    (task : Task) (hfind : st.tasks.find? (fun t => t.id = taskId) = some task) :
    ((task.status = TaskStatus.pending →
      ∀ evts st' σ' t',
        updateTaskDynamicData st σ taskId newData currentTaskData now =
          (evts, .ok (st', σ', t')) →
        t'.status = TaskStatus.inProgress ∧
        (task.startDatetime = none → t'.startDatetime = some now) ∧
        (∀ u, task.startDatetime = some u → t'.startDatetime = some u)) ∧
    (task.status ≠ TaskStatus.pending →
      ∀ evts st' σ' t',
        updateTaskDynamicData st σ taskId newData currentTaskData now =
          (evts, .ok (st', σ', t')) →
        t'.status = task.status ∧ t'.startDatetime = task.startDatetime) ∧
    (∀ notes st' t',
        completeTask st taskId notes now = .ok (st', t') →
        t'.status = TaskStatus.completed ∧
        t'.finishDatetime = some now ∧
        (task.status = TaskStatus.pending → task.startDatetime = none →
          t'.startDatetime = some now)) ∧
    (∀ (fails : ReadOp → Bool) (payload : AddWorkflowInstancePayload)
        (instId : String) (ftid : Nat → String) (ids : List String)
        (idx : Nat) (ts : List Task),
        materializeTasks st fails payload now instId ftid ids idx = .ok ts →
        ∀ t ∈ ts, t.status = TaskStatus.pending)) := by
  refine ⟨?_, ?_, ?_, ?_⟩
  · intro hpend evts st' σ' t' h
    simp only [updateTaskDynamicData, hfind] at h
    rcases hrs : taskReconcileStep st σ taskId newData currentTaskData task with ⟨evts0, r0⟩
    rw [hrs] at h
    cases r0 with
    | error e => simp at h
    | ok pr =>
        obtain ⟨σ₁, processed⟩ := pr
        simp only at h
        cases h
        refine ⟨by simp [taskAfterDataSave, hpend], ?_, ?_⟩
        · intro hsd; simp [taskAfterDataSave, hpend, hsd]
        · intro u hu; simp [taskAfterDataSave, hpend, hu]
  · intro hnp evts st' σ' t' h
    simp only [updateTaskDynamicData, hfind] at h
    rcases hrs : taskReconcileStep st σ taskId newData currentTaskData task with ⟨evts0, r0⟩
    rw [hrs] at h
    cases r0 with
    | error e => simp at h
    | ok pr =>
        obtain ⟨σ₁, processed⟩ := pr
        simp only at h
        cases h
        constructor
        · simp [taskAfterDataSave, hnp]
        · simp [taskAfterDataSave, hnp]
  · intro notes st' t' h
    simp only [completeTask, hfind] at h
    cases h
    refine ⟨rfl, rfl, ?_⟩
    intro hpend hsd
    simp [hpend, hsd]
  · intro fails payload instId ftid ids idx ts h
    exact materializeTasks_pending st fails payload now instId ftid ids idx ts h

/-- C8 witness: the status machine instantiated on the sample Pending task. -/
theorem task_status_machine_witness :
    ((({ id := "task1", taskTemplateId := "tt1", workflowInstanceId := "wf1",
         status := TaskStatus.pending, createdAt := 0 } : Task).status =
            TaskStatus.pending →
      ∀ evts st' σ' t',
        updateTaskDynamicData sampleTaskStore [] "task1" [] [] 9 =
          (evts, .ok (st', σ', t')) →
        t'.status = TaskStatus.inProgress ∧
        (({ id := "task1", taskTemplateId := "tt1", workflowInstanceId := "wf1",
            status := TaskStatus.pending, createdAt := 0 } : Task).startDatetime = none →
          t'.startDatetime = some 9) ∧
        (∀ u, ({ id := "task1", taskTemplateId := "tt1", workflowInstanceId := "wf1",
                 status := TaskStatus.pending, createdAt := 0 } : Task).startDatetime =
              some u →
          t'.startDatetime = some u)) ∧
    (({ id := "task1", taskTemplateId := "tt1", workflowInstanceId := "wf1",
        status := TaskStatus.pending, createdAt := 0 } : Task).status ≠
          TaskStatus.pending →
      ∀ evts st' σ' t',
        updateTaskDynamicData sampleTaskStore [] "task1" [] [] 9 =
          (evts, .ok (st', σ', t')) →
        t'.status = ({ id := "task1", taskTemplateId := "tt1",
                       workflowInstanceId := "wf1", status := TaskStatus.pending,
                       createdAt := 0 } : Task).status ∧
        t'.startDatetime = ({ id := "task1", taskTemplateId := "tt1",
                              workflowInstanceId := "wf1", status := TaskStatus.pending,
                              createdAt := 0 } : Task).startDatetime) ∧
    (∀ notes st' t',
        completeTask sampleTaskStore "task1" notes 9 = .ok (st', t') →
        t'.status = TaskStatus.completed ∧
        t'.finishDatetime = some 9 ∧
        (({ id := "task1", taskTemplateId := "tt1", workflowInstanceId := "wf1",
            status := TaskStatus.pending, createdAt := 0 } : Task).status =
              TaskStatus.pending →
         ({ id := "task1", taskTemplateId := "tt1", workflowInstanceId := "wf1",
            status := TaskStatus.pending, createdAt := 0 } : Task).startDatetime = none →
          t'.startDatetime = some 9)) ∧
    (∀ (fails : ReadOp → Bool) (payload : AddWorkflowInstancePayload)
        (instId : String) (ftid : Nat → String) (ids : List String)
        (idx : Nat) (ts : List Task),
        materializeTasks sampleTaskStore fails payload 9 instId ftid ids idx = .ok ts →
        ∀ t ∈ ts, t.status = TaskStatus.pending)) :=
  task_status_machine sampleTaskStore [] "task1" [] [] 9
    { id := "task1", taskTemplateId := "tt1", workflowInstanceId := "wf1",
      status := TaskStatus.pending, createdAt := 0 } (by rfl)

/-- C9: when the task just marked Completed is the last remaining
non-Completed task of the instance, the client handler `handleTaskCompleted`
transitions the instance from Active to Completed with `finishDatetime` set,
both in its local state and through one `updateWorkflowInstanceStatus` write
to the store; and this check lives only in the client caller — the server-side
`completeTask` never touches the `workflowInstances` collection. -/
theorem last_task_completion_completes_instance
    (st : Store) (cs : ClientState) (completedTask : Task) (now : Int)
    (sInst : WorkflowInstance)
    (hActive : cs.inst.status = WorkflowInstanceStatus.active)
    (hStore : st.workflowInstances.find? (fun i => i.id = cs.inst.id) = some sInst)
    (hOthers : ∀ t ∈ cs.tasks, t.id ≠ completedTask.id → t.status = TaskStatus.completed) :
    ((handleTaskCompleted st cs completedTask now).2.inst =
        { sInst with status := WorkflowInstanceStatus.completed,
                     finishDatetime := some now } ∧
    (handleTaskCompleted st cs completedTask now).2.inst.status =
        WorkflowInstanceStatus.completed ∧
    (handleTaskCompleted st cs completedTask now).2.inst.finishDatetime = some now ∧
    (handleTaskCompleted st cs completedTask now).1 =
      st.updateInstance
        { sInst with status := WorkflowInstanceStatus.completed,
                     finishDatetime := some now } ∧
    (∀ (st₀ : Store) (taskId : String) (notes : Option String) (n : Int)
        (st' : Store) (t' : Task),
      completeTask st₀ taskId notes n = .ok (st', t') →
      st'.workflowInstances = st₀.workflowInstances)) := by
  have hall : (cs.tasks.map (fun t =>
      if t.id = completedTask.id then
        { completedTask with status := TaskStatus.completed, finishDatetime := some now }
      else t)).all (fun t => t.status = TaskStatus.completed) = true := by
    rw [List.all_eq_true]
    intro t ht
    obtain ⟨u, hu, rfl⟩ := List.mem_map.mp ht
    by_cases hid : u.id = completedTask.id
    · simp [hid]
    · simp only [hid, if_false]
      simpa using hOthers u hu hid
  have hne : (cs.inst.status ≠ WorkflowInstanceStatus.completed) := by
    rw [hActive]; intro hcon; cases hcon
  have hupd : updateWorkflowInstanceStatus st cs.inst.id
      WorkflowInstanceStatus.completed (some now) =
      .ok (st.updateInstance
            { sInst with status := WorkflowInstanceStatus.completed,
                         finishDatetime := some now },
           { sInst with status := WorkflowInstanceStatus.completed,
                        finishDatetime := some now }) := by
    simp [updateWorkflowInstanceStatus, hStore]
  have hmain : handleTaskCompleted st cs completedTask now =
      (st.updateInstance
        { sInst with status := WorkflowInstanceStatus.completed,
                     finishDatetime := some now },
       { inst := { sInst with status := WorkflowInstanceStatus.completed,
                              finishDatetime := some now },
         tasks := cs.tasks.map (fun t =>
           if t.id = completedTask.id then
             { completedTask with status := TaskStatus.completed,
                                  finishDatetime := some now }
           else t) }) := by
    simp [handleTaskCompleted, hall, hne, hupd]
  refine ⟨?_, ?_, ?_, ?_, ?_⟩
  · rw [hmain]
  · rw [hmain]
  · rw [hmain]
  · rw [hmain]
  · intro st₀ taskId notes n st' t' h
    cases hf : st₀.tasks.find? (fun t => t.id = taskId) with
    | none => simp [completeTask, hf] at h
    | some task =>
        simp only [completeTask, hf] at h
        cases h
        rfl

/-- C9 witness: completing the only task of the sample instance marks the
instance Completed with a finish time. -/
theorem last_task_completion_completes_instance_witness :
    ((handleTaskCompleted sampleTaskStore
        { inst := { id := "wf1", workflowTemplateId := "wt1", name := "instance one",
                    status := WorkflowInstanceStatus.active, startDatetime := 0,
                    createdAt := 0 },
          tasks := [{ id := "task1", taskTemplateId := "tt1",
                      workflowInstanceId := "wf1", status := TaskStatus.pending,
                      createdAt := 0 }] }
        { id := "task1", taskTemplateId := "tt1", workflowInstanceId := "wf1",
          status := TaskStatus.completed, createdAt := 0 } 11).2.inst =
        { ({ id := "wf1", workflowTemplateId := "wt1", name := "instance one",
             status := WorkflowInstanceStatus.active, startDatetime := 0,
             createdAt := 0 } : WorkflowInstance) with
          status := WorkflowInstanceStatus.completed, finishDatetime := some 11 } ∧
    (handleTaskCompleted sampleTaskStore
        { inst := { id := "wf1", workflowTemplateId := "wt1", name := "instance one",
                    status := WorkflowInstanceStatus.active, startDatetime := 0,
                    createdAt := 0 },
          tasks := [{ id := "task1", taskTemplateId := "tt1",
                      workflowInstanceId := "wf1", status := TaskStatus.pending,
                      createdAt := 0 }] }
        { id := "task1", taskTemplateId := "tt1", workflowInstanceId := "wf1",
          status := TaskStatus.completed, createdAt := 0 } 11).2.inst.status =
        WorkflowInstanceStatus.completed ∧
    (handleTaskCompleted sampleTaskStore
        { inst := { id := "wf1", workflowTemplateId := "wt1", name := "instance one",
                    status := WorkflowInstanceStatus.active, startDatetime := 0,
                    createdAt := 0 },
          tasks := [{ id := "task1", taskTemplateId := "tt1",
                      workflowInstanceId := "wf1", status := TaskStatus.pending,
                      createdAt := 0 }] }
        { id := "task1", taskTemplateId := "tt1", workflowInstanceId := "wf1",
          status := TaskStatus.completed, createdAt := 0 } 11).2.inst.finishDatetime =
        some 11 ∧
    (handleTaskCompleted sampleTaskStore
        { inst := { id := "wf1", workflowTemplateId := "wt1", name := "instance one",
                    status := WorkflowInstanceStatus.active, startDatetime := 0,
                    createdAt := 0 },
          tasks := [{ id := "task1", taskTemplateId := "tt1",
                      workflowInstanceId := "wf1", status := TaskStatus.pending,
                      createdAt := 0 }] }
        { id := "task1", taskTemplateId := "tt1", workflowInstanceId := "wf1",
          status := TaskStatus.completed, createdAt := 0 } 11).1 =
      sampleTaskStore.updateInstance
        { ({ id := "wf1", workflowTemplateId := "wt1", name := "instance one",
             status := WorkflowInstanceStatus.active, startDatetime := 0,
             createdAt := 0 } : WorkflowInstance) with
          status := WorkflowInstanceStatus.completed, finishDatetime := some 11 } ∧
    (∀ (st₀ : Store) (taskId : String) (notes : Option String) (n : Int)
        (st' : Store) (t' : Task),
      completeTask st₀ taskId notes n = .ok (st', t') →
      st'.workflowInstances = st₀.workflowInstances)) :=
  last_task_completion_completes_instance sampleTaskStore
    { inst := { id := "wf1", workflowTemplateId := "wt1", name := "instance one",
                status := WorkflowInstanceStatus.active, startDatetime := 0,
                createdAt := 0 },
      tasks := [{ id := "task1", taskTemplateId := "tt1", workflowInstanceId := "wf1",
                  status := TaskStatus.pending, createdAt := 0 }] }
    { id := "task1", taskTemplateId := "tt1", workflowInstanceId := "wf1",
      status := TaskStatus.completed, createdAt := 0 } 11
    { id := "wf1", workflowTemplateId := "wt1", name := "instance one",
      status := WorkflowInstanceStatus.active, startDatetime := 0, createdAt := 0 }
    rfl (by rfl) (by decide)

end FlowForm
